import Mathlib

/-!
Shallow embedding of the relay-server hub (`src/index.js`), the irrigation
log sink (`DatabaseService.logIrrigation`) and the robot status cache
(`src/controllers/roomba.js`).

The WebSocket part of the server is modelled as a step function on an
explicit server state: each discrete event (connection upgrade, inbound
message, transport close) is processed atomically, returning the new server
state together with the list of outbound actions (sends and closes) the
handler performed, mirroring the single-threaded event loop of the source.
-/

namespace Relay

/-- Opaque identity of a WebSocket connection (`ws` object identity). -/
abbrev ConnId := Nat

/-- The request path of the upgrade, which fixes the handler for the
connection (`wss.on('connection')` dispatch on `request.url`). -/
inductive Path where
  | esp32
  | esp32Irrigation
  | app
  | unrecognized
deriving DecidableEq, Repr

/-- Per-connection handler state: the path that was fixed at upgrade time,
the `authenticated` closure variable of the device handlers, and whether the
server has called `ws.close()` on it (readyState no longer 1). -/
structure ConnInfo where
  path : Path
  authenticated : Bool
  closing : Bool
deriving DecidableEq, Repr

/-- One shutter channel record: position and movement direction. -/
structure ShutterCh where
  pos : Nat
  dir : Int
deriving DecidableEq, Repr

/-- The full shutters payload of a `STATE` message (`message.data`). -/
structure ShuttersData where
  s1 : ShutterCh
  s2 : ShutterCh
  s3 : ShutterCh
  s4 : ShutterCh
deriving DecidableEq, Repr

/-- `shuttersState`: the data blob plus the `lastUpdate` stamp. -/
structure ShuttersState where
  data : ShuttersData
  lastUpdate : Option Nat
deriving DecidableEq, Repr

/-- The irrigation payload of an `IRRIGATION_STATE` message. -/
structure IrrigationData where
  active : Bool
  duration : Nat
  elapsed : Nat
  completion : Nat
deriving DecidableEq, Repr

/-- `irrigationState`: the data blob plus the `lastUpdate` stamp. -/
structure IrrigationState where
  data : IrrigationData
  lastUpdate : Option Nat
deriving DecidableEq, Repr

/-- One robot entry of `robotsState`. -/
structure RobotEntry where
  battery : Nat
  phase : String
  connected : Bool
deriving DecidableEq, Repr

/-- The robots payload of a `ROBOT_STATE` message. -/
structure RobotsData where
  roomba_j7 : RobotEntry
  braava_jet : RobotEntry
deriving DecidableEq, Repr

/-- `robotsState`: the data blob plus the `lastUpdate` stamp. -/
structure RobotsState where
  data : RobotsData
  lastUpdate : Option Nat
deriving DecidableEq, Repr

/-- A row of the `irrigation_logs` table written by
`DatabaseService.logIrrigation(action, duration, waterUsed)`. -/
structure IrrLogEntry where
  action : String
  duration : Nat
  waterUsed : Nat
deriving DecidableEq, Repr

/-- `DatabaseService.logIrrigation`: appends one row to `irrigation_logs`
(translated from the database service module; `enabled` is taken as true). -/
def logIrrigation (log : List IrrLogEntry) (action : String)
    (duration waterUsed : Nat) : List IrrLogEntry :=
  log ++ [⟨action, duration, waterUsed⟩]

/-- Parsed inbound client messages, discriminated by their `type` tag.
`other` stands for any message whose tag matches none of the handled ones. -/
inductive ClientMsg where
  | auth (secret : String)
  | state (d : ShuttersData)
  | ack
  | robotState (d : RobotsData)
  | robotResponse (payload : String)
  | irrigationState (d : IrrigationData)
  | irrigationCommandComplete
  | command (token action : String) (channel value : Nat)
  | irrigationCommand (token payload : String)
  | robotCommand (token robotId cmd : String)
  | other
deriving DecidableEq, Repr

/-- Outbound messages sent by the server over a WebSocket. -/
inductive OutMsg where
  | authOk
  | authFailed
  | requestState
  | stateUpdate (st : ShuttersState)
  | robotStateUpdate (st : RobotsState)
  | robotResponseFwd (payload : String)
  | irrigationStateMsg (st : IrrigationState)
  | irrigationCommandCompleteFwd
  | command (action : String) (channel value : Nat)
  | robotForwardCommand (robotId cmd : String)
  | irrigationCommandFwd (payload : String)
  | irrigationResponse (success : Bool)
  | robotResponse (success : Bool)
deriving DecidableEq, Repr

/-- An observable effect of one handler run: a `ws.send` or a `ws.close`. -/
inductive Action where
  | send (target : ConnId) (msg : OutMsg)
  | close (target : ConnId)
deriving DecidableEq, Repr

/-- Whether an action is a `ws.close`. -/
def Action.isClose : Action → Bool
  | .close _ => true
  | .send _ _ => false

/-- A discrete event processed by the single-threaded event loop. An inbound
message is `none` when `JSON.parse` throws (unparseable payload). -/
inductive Event where
  | connect (c : ConnId) (p : Path)
  | message (c : ConnId) (m : Option ClientMsg)
  | close (c : ConnId)
deriving DecidableEq, Repr

/-- The whole mutable server state: the tracked open connections
(`wss.clients` with the per-connection handler closures), the two registered
device sockets, the three state blobs, and the external irrigation log. -/
structure SState where
  conns : List (ConnId × ConnInfo)
  esp32Socket : Option ConnId
  esp32IrrigationSocket : Option ConnId
  shuttersState : ShuttersState
  irrigationState : IrrigationState
  robotsState : RobotsState
  irrigationLog : List IrrLogEntry
deriving DecidableEq, Repr

/-- Configured shutters-device secret (default value from the source). -/
def ESP32_SECRET : String := "your-esp32-secret-key"

/-- Configured irrigation-device secret (default value from the source). -/
def ESP32_IRRIGATION_SECRET : String := "my-super-secret-irrigation-key-54321"

/-- Configured controller secret (default value from the source). -/
def APP_SECRET : String := "your-app-secret-key"

/-- `readyState === 1`: the connection is tracked and not closing. -/
def isOpen (s : SState) (c : ConnId) : Bool :=
  match s.conns.lookup c with
  | some i => !i.closing
  | none => false

/-- `esp32Socket && esp32Socket.readyState === 1`. -/
def esp32Live (s : SState) : Bool :=
  match s.esp32Socket with
  | some d => isOpen s d
  | none => false

/-- `esp32IrrigationSocket && esp32IrrigationSocket.readyState === 1`. -/
def irrigationLive (s : SState) : Bool :=
  match s.esp32IrrigationSocket with
  | some d => isOpen s d
  | none => false

/-- `broadcastToApps(message)`: send to every client whose readyState is 1
and which is not the current `esp32Socket`. -/
def broadcastToApps (s : SState) (m : OutMsg) : List Action :=
  (s.conns.filter fun p => !p.2.closing && !(s.esp32Socket == some p.1)).map
    fun p => Action.send p.1 m

/-- Set the `authenticated` closure variable of connection `c` to true. -/
def setAuth (conns : List (ConnId × ConnInfo)) (c : ConnId) :
    List (ConnId × ConnInfo) :=
  conns.map fun p => if p.1 = c then (p.1, { p.2 with authenticated := true }) else p

/-- Mark connection `c` as closing (server-side `ws.close()` was called). -/
def setClosing (conns : List (ConnId × ConnInfo)) (c : ConnId) :
    List (ConnId × ConnInfo) :=
  conns.map fun p => if p.1 = c then (p.1, { p.2 with closing := true }) else p

/-- Remove connection `c` from the tracked set (transport closed). -/
def removeConn (conns : List (ConnId × ConnInfo)) (c : ConnId) :
    List (ConnId × ConnInfo) :=
  conns.filter fun p => !(p.1 == c)

/-- Message handler of `handleESP32Connection` (shutters / robot bridge). -/
def stepESP32 (s : SState) (c : ConnId) (info : ConnInfo) (m : ClientMsg)
    (now : Nat) : SState × List Action :=
  if info.authenticated = false then
    match m with
    | .auth secret =>
      if secret = ESP32_SECRET then
        ({ s with conns := setAuth s.conns c, esp32Socket := some c },
         [.send c .authOk, .send c .requestState])
      else
        ({ s with conns := setClosing s.conns c }, [.send c .authFailed, .close c])
    | _ => ({ s with conns := setClosing s.conns c }, [.send c .authFailed, .close c])
  else
    match m with
    | .state d =>
      let st : ShuttersState := ⟨d, some now⟩
      let s' := { s with shuttersState := st }
      (s', broadcastToApps s' (.stateUpdate st))
    | .robotState d =>
      let st : RobotsState := ⟨d, some now⟩
      let s' := { s with robotsState := st }
      (s', broadcastToApps s' (.robotStateUpdate st))
    | .robotResponse payload => (s, broadcastToApps s (.robotResponseFwd payload))
    | _ => (s, [])

/-- Message handler of `handleESP32IrrigationConnection`. -/
def stepIrrigation (s : SState) (c : ConnId) (info : ConnInfo) (m : ClientMsg)
    (now : Nat) : SState × List Action :=
  if info.authenticated = false then
    match m with
    | .auth secret =>
      if secret = ESP32_IRRIGATION_SECRET then
        ({ s with conns := setAuth s.conns c, esp32IrrigationSocket := some c },
         [.send c .authOk, .send c .requestState])
      else
        ({ s with conns := setClosing s.conns c }, [.send c .authFailed, .close c])
    | _ => ({ s with conns := setClosing s.conns c }, [.send c .authFailed, .close c])
  else
    match m with
    | .irrigationState d =>
      let st : IrrigationState := ⟨d, some now⟩
      let s' := { s with irrigationState := st }
      (s', broadcastToApps s' (.irrigationStateMsg st))
    | .irrigationCommandComplete => (s, broadcastToApps s .irrigationCommandCompleteFwd)
    | _ => (s, [])

/-- Message handler of `handleAppConnection` (controller socket). -/
def stepApp (s : SState) (c : ConnId) (m : ClientMsg) : SState × List Action :=
  match m with
  | .command token action channel value =>
    if token = APP_SECRET then
      match s.esp32Socket with
      | some d =>
        if isOpen s d then (s, [.send d (.command action channel value)])
        else (s, [])
      | none => (s, [])
    else (s, [])
  | .irrigationCommand token payload =>
    if token = APP_SECRET then
      match s.esp32IrrigationSocket with
      | some d =>
        if isOpen s d then
          (s, [.send d (.irrigationCommandFwd payload),
               .send c (.irrigationResponse true)])
        else (s, [.send c (.irrigationResponse false)])
      | none => (s, [.send c (.irrigationResponse false)])
    else (s, [])
  | .robotCommand token robotId cmd =>
    if token = APP_SECRET then
      match s.esp32Socket with
      | some d =>
        if isOpen s d then
          (s, [.send d (.robotForwardCommand robotId cmd),
               .send c (.robotResponse true)])
        else (s, [.send c (.robotResponse false)])
      | none => (s, [.send c (.robotResponse false)])
    else (s, [])
  | _ => (s, [])

/-- Mark every robot entry as disconnected (the loop in the shutters close
handler that forces `connected = false` on each entry). -/
def disconnectRobots (r : RobotsState) : RobotsState :=
  ⟨⟨{ r.data.roomba_j7 with connected := false },
    { r.data.braava_jet with connected := false }⟩, r.lastUpdate⟩

/-- Close-event handling: the `ws.on('close')` handler registered for the
connection's path, after the transport removes the socket from the set. -/
def stepClose (s : SState) (c : ConnId) : SState × List Action :=
  match s.conns.lookup c with
  | some info =>
    let conns' := removeConn s.conns c
    match info.path with
    | .esp32 =>
      if s.esp32Socket == some c then
        let rs := disconnectRobots s.robotsState
        let s' := { s with conns := conns', esp32Socket := none, robotsState := rs }
        (s', broadcastToApps s' (.robotStateUpdate rs))
      else ({ s with conns := conns' }, [])
    | .esp32Irrigation =>
      if s.esp32IrrigationSocket == some c then
        ({ s with conns := conns', esp32IrrigationSocket := none }, [])
      else ({ s with conns := conns' }, [])
    | _ => ({ s with conns := conns' }, [])
  | none => (s, [])

/-- One step of the event loop: dispatch the event exactly as the source
handlers do and return the new state with the performed actions. -/
def step (s : SState) (e : Event) (now : Nat) : SState × List Action :=
  match e with
  | .connect c p =>
    match p with
    | .esp32 =>
      ({ s with conns := s.conns ++ [(c, ⟨.esp32, false, false⟩)] }, [])
    | .esp32Irrigation =>
      ({ s with conns := s.conns ++ [(c, ⟨.esp32Irrigation, false, false⟩)] }, [])
    | .app =>
      ({ s with conns := s.conns ++ [(c, ⟨.app, false, false⟩)] },
       [.send c (.stateUpdate s.shuttersState)])
    | .unrecognized => (s, [.close c])
  | .message c none => (s, [])
  | .message c (some m) =>
    match s.conns.lookup c with
    | none => (s, [])
    | some info =>
      match info.path with
      | .esp32 => stepESP32 s c info m now
      | .esp32Irrigation => stepIrrigation s c info m now
      | .app => stepApp s c m
      | .unrecognized => (s, [])
  | .close c => stepClose s c

/-- Result of `POST /api/command`, discriminated by the HTTP status. -/
inductive ApiResp where
  | ok (action : String) (channel value : Nat)
  | unauthorized
  | unavailable
  | sendFailed
deriving DecidableEq, Repr

/-- HTTP status code of an `ApiResp`. -/
def ApiResp.status : ApiResp → Nat
  | .ok _ _ _ => 200
  | .unauthorized => 401
  | .unavailable => 503
  | .sendFailed => 500

/-- The `POST /api/command` route handler. `sendOk` models whether
`esp32Socket.send` throws; the returned action list holds what was sent to
the device socket. -/
def apiCommand (s : SState) (token action : String) (channel value : Nat)
    (sendOk : Bool) : ApiResp × List Action :=
  if token ≠ APP_SECRET then (.unauthorized, [])
  else
    match s.esp32Socket with
    | none => (.unavailable, [])
    | some d =>
      if isOpen s d = false then (.unavailable, [])
      else if sendOk then (.ok action channel value, [.send d (.command action channel value)])
      else (.sendFailed, [])

/-- Cached MQTT state of a robot (`robot.lastState`), with every field
optional since the vendor stream may omit any of them. -/
structure CachedState where
  batPct : Option Nat
  missionPhase : Option String
  missionCycle : Option String
  binFull : Option Bool
  missionError : Option String
  pose : Option String
deriving DecidableEq, Repr

/-- One entry of `RoombaController.robots`. -/
structure Robot where
  name : String
  rtype : String
  connected : Bool
  lastState : Option CachedState
deriving DecidableEq, Repr

/-- The record returned by `RoombaController.getStatus`; fields absent in
the JS object are `none`. -/
structure StatusRecord where
  robot : String
  name : String
  rtype : String
  connected : Bool
  battery : Nat
  phase : String
  cycle : Option String
  binFull : Option Bool
  error : Option String
  position : Option String
deriving DecidableEq, Repr

/-- `RoombaController.getStatus(robotId)`: a pure function of the cached
robot map — it throws on an unknown id and otherwise builds the status
record from `robot.connected` and `robot.lastState` alone. -/
def getStatus (robots : List (String × Robot)) (robotId : String) :
    Except String StatusRecord :=
  match robots.lookup robotId with
  | none => .error ("Robot " ++ robotId ++ " not found")
  | some r =>
    match r.lastState, r.connected with
    | some st, true =>
      .ok { robot := robotId, name := r.name, rtype := r.rtype
            connected := true
            battery := st.batPct.getD 0
            phase := st.missionPhase.getD "unknown"
            cycle := some (st.missionCycle.getD "none")
            binFull := some (st.binFull.getD false)
            error := st.missionError
            position := st.pose }
    | _, _ =>
      .ok { robot := robotId, name := r.name, rtype := r.rtype
            connected := r.connected
            battery := 0
            phase := if r.connected then "waiting" else "disconnected"
            cycle := none
            binFull := none
            error := if r.connected then none else some "Not connected to robot"
            position := none }

/-- The module-level initial values of the state variables. -/
def initialState : SState :=
  { conns := []
    esp32Socket := none
    esp32IrrigationSocket := none
    shuttersState := ⟨⟨⟨0, 0⟩, ⟨0, 0⟩, ⟨0, 0⟩, ⟨0, 0⟩⟩, none⟩
    irrigationState := ⟨⟨false, 0, 0, 0⟩, none⟩
    robotsState := ⟨⟨⟨0, "unknown", false⟩, ⟨0, "unknown", false⟩⟩, none⟩
    irrigationLog := [] }

/-! Concrete scenario states used to evaluate the model on explicit inputs. -/

/-- A concrete shutters payload. -/
def demoShutters : ShuttersData := ⟨⟨50, 0⟩, ⟨0, 0⟩, ⟨0, 0⟩, ⟨0, 0⟩⟩

/-- Trace: connection 1 upgrades on `/esp32` and authenticates. -/
def c1s2 : SState :=
  (step (step initialState (.connect 1 .esp32) 0).1
    (.message 1 (some (.auth ESP32_SECRET))) 1).1

/-- Then connection 2 upgrades on `/esp32` and authenticates too. -/
def c1r4 : SState × List Action :=
  step (step c1s2 (.connect 2 .esp32) 2).1 (.message 2 (some (.auth ESP32_SECRET))) 3

/-- Then the evicted connection 1 pushes a `STATE` message. -/
def c1r5 : SState × List Action :=
  step c1r4.1 (.message 1 (some (.state demoShutters))) 4

/-- A server state with one unauthenticated `/esp32` connection. -/
def c1wA : SState := { initialState with conns := [(1, ⟨.esp32, false, false⟩)] }

/-- A server state where connection 2 is an authenticated `/esp32`
connection that is no longer the registered socket. -/
def c1wB : SState :=
  { initialState with conns := [(2, ⟨.esp32, true, false⟩)], esp32Socket := some 9 }

/-- A server state with a registered irrigation device (5) and an app (3),
with the stored irrigation state inactive and an empty irrigation log. -/
def c2state : SState :=
  { initialState with
    conns := [(5, ⟨.esp32Irrigation, true, false⟩), (3, ⟨.app, false, false⟩)]
    esp32IrrigationSocket := some 5 }

/-- The irrigation device reports `active: true` with duration 600. -/
def c2result : SState × List Action :=
  step c2state (.message 5 (some (.irrigationState ⟨true, 600, 0, 0⟩))) 10

/-- A server state with a registered irrigation device (7) and an app (3). -/
def c3state : SState :=
  { initialState with
    conns := [(7, ⟨.esp32Irrigation, true, false⟩), (3, ⟨.app, false, false⟩)]
    esp32IrrigationSocket := some 7 }

/-- The registered irrigation device's transport closes. -/
def c3result : SState × List Action := step c3state (.close 7) 0

/-- A server state with a registered shutters device (1) and an app (3). -/
def c3wA : SState :=
  { initialState with
    conns := [(1, ⟨.esp32, true, false⟩), (3, ⟨.app, false, false⟩)]
    esp32Socket := some 1 }

/-- A concrete shutters payload for the broadcast scenario. -/
def c4data : ShuttersData := ⟨⟨10, 1⟩, ⟨20, 0⟩, ⟨30, 0⟩, ⟨40, 0⟩⟩

/-- A server state with a registered shutters device (1), a registered
irrigation device (2) and an app controller (3), all open. -/
def c4state : SState :=
  { initialState with
    conns := [(1, ⟨.esp32, true, false⟩), (2, ⟨.esp32Irrigation, true, false⟩),
              (3, ⟨.app, false, false⟩)]
    esp32Socket := some 1
    esp32IrrigationSocket := some 2 }

/-- The shutters device pushes a `STATE` message, triggering a broadcast. -/
def c4result : SState × List Action :=
  step c4state (.message 1 (some (.state c4data))) 6

/-- A server state with only an app controller (9): no device is live. -/
def c5wstate : SState := { initialState with conns := [(9, ⟨.app, false, false⟩)] }

/-- A server state where connection 2 is authenticated on `/esp32` but a
different connection (5) is the registered socket for both classes. -/
def c6wstate : SState :=
  { initialState with
    conns := [(2, ⟨.esp32, true, false⟩)]
    esp32Socket := some 5
    esp32IrrigationSocket := some 6 }

/-- A server state with a live registered shutters device (1). -/
def apiDemo : SState :=
  { initialState with conns := [(1, ⟨.esp32, true, false⟩)], esp32Socket := some 1 }

/-- A server state with one unauthenticated `/esp32` connection (4). -/
def c8state : SState := { initialState with conns := [(4, ⟨.esp32, false, false⟩)] }

/-- A robot map whose only robot is connected but has no cached state yet. -/
def c9robots : List (String × Robot) :=
  [("roomba_j7", ⟨"Roomba j7", "vacuum", true, none⟩)]

/-- The record `getStatus` returns for a connected robot with no cache. -/
def c9record : StatusRecord :=
  ⟨"roomba_j7", "Roomba j7", "vacuum", true, 0, "waiting", none, none, none, none⟩

/-- A robot map whose only robot is disconnected. -/
def c9wrobots : List (String × Robot) :=
  [("braava_jet", ⟨"Braava Jet", "mop", false, none⟩)]

/-! Theorems settling the claims. -/

/-- Claim C10 — a WebSocket upgrade on a path that is none of `/esp32`,
`/esp32-irrigation`, `/app` is closed immediately, with no message sent and
no registry or state variable changed. -/
theorem unrecognized_path_closed_silently (s : SState) (c : ConnId) (now : Nat) :
    step s (.connect c .unrecognized) now = (s, [.close c]) := rfl

/-- Claim C8 (amended) — every unparseable inbound message is discarded with
no state change, no outbound message and no close, on every connection,
including the first message of a not-yet-authenticated device connection. -/
theorem malformed_message_discarded (s : SState) (c : ConnId) (now : Nat) :
    step s (.message c none) now = (s, []) := rfl

/-- Claim C8 counterexample — an unparseable first message on an
unauthenticated `/esp32` device connection does not close the connection:
the state is unchanged, no action is emitted, and the connection is still
open afterwards, contradicting the claim that it is fatal. -/
theorem malformed_first_message_nonfatal_cx :
    step c8state (.message 4 none) 0 = (c8state, []) ∧ isOpen c8state 4 = true := by
  decide

/-- No sub-handler of the shutters device path touches the irrigation log. -/
lemma stepESP32_log (s : SState) (c : ConnId) (i : ConnInfo) (m : ClientMsg)
    (now : Nat) : (stepESP32 s c i m now).1.irrigationLog = s.irrigationLog := by
  unfold stepESP32
  cases m <;> split <;> (try split) <;> (try split) <;> rfl

/-- No sub-handler of the irrigation device path touches the irrigation log. -/
lemma stepIrrigation_log (s : SState) (c : ConnId) (i : ConnInfo) (m : ClientMsg)
    (now : Nat) : (stepIrrigation s c i m now).1.irrigationLog = s.irrigationLog := by
  unfold stepIrrigation
  cases m <;> split <;> (try split) <;> (try split) <;> rfl

/-- No sub-handler of the controller path touches the irrigation log. -/
lemma stepApp_log (s : SState) (c : ConnId) (m : ClientMsg) :
    (stepApp s c m).1.irrigationLog = s.irrigationLog := by
  unfold stepApp
  cases m <;> (try rfl) <;> split <;> (try rfl) <;> split <;> (try rfl) <;>
    split <;> (try rfl) <;> split <;> rfl

/-- Close handling never touches the irrigation log. -/
lemma stepClose_log (s : SState) (c : ConnId) :
    (stepClose s c).1.irrigationLog = s.irrigationLog := by
  unfold stepClose
  split <;> (try rfl) <;> split <;> (try rfl) <;> split <;> rfl

/-- Claim C2 (amended) — processing any event, in particular an irrigation
full-state message that flips the active flag, never appends to the
irrigation log: the hub performs no transition detection and never invokes
`logIrrigation`, so the log after any step equals the log before. -/
theorem step_preserves_irrigation_log (s : SState) (e : Event) (now : Nat) :
    (step s e now).1.irrigationLog = s.irrigationLog := by
  cases e with
  | connect c p => cases p <;> rfl
  | message c m =>
    cases m with
    | none => rfl
    | some msg =>
      simp only [step]
      cases h : s.conns.lookup c with
      | none => rfl
      | some info =>
        cases hp : info.path <;>
          simp only [hp, stepESP32_log, stepIrrigation_log, stepApp_log]
  | close c => exact stepClose_log s c

/-- Claim C2 counterexample — the stored irrigation state is inactive, the
registered irrigation device sends a full-state message with `active: true`
(duration 600): the active flag transitions false→true, yet the irrigation
log stays empty — no START event is logged, contradicting the claimed
exactly-one START per transition. -/
theorem irrigation_transition_unlogged_cx :
    c2state.irrigationState.data.active = false ∧
    c2result.1.irrigationState.data.active = true ∧
    c2result.1.irrigationState.data.duration = 600 ∧
    c2result.1.irrigationLog = [] ∧
    ¬c2result.1.irrigationLog.length = 1 := by
  decide

/-- Claim C1 counterexample — connection 1 authenticates on `/esp32` and is
registered; connection 2 then authenticates on the same class. The actions
of connection 2's registration are exactly the two sends of its own auth
handshake — no close of connection 1 is ever emitted — connection 1 is still
open afterwards, and connection 1's subsequent `STATE` message still
replaces the shutters state, contradicting the claimed forcible close of
the evicted connection. -/
theorem register_no_eviction_cx :
    c1s2.esp32Socket = some 1 ∧
    c1r4.1.esp32Socket = some 2 ∧
    c1r4.2 = [.send 2 .authOk, .send 2 .requestState] ∧
    c1r4.2.all (fun a => !a.isClose) = true ∧
    isOpen c1r4.1 1 = true ∧
    c1r5.1.shuttersState.data = demoShutters := by
  decide

/-- Claim C1 (amended) — at most one registered identity exists per class (a
single optional owner), and a successful authentication on `/esp32` makes
the newly authenticated connection the registered one, emitting only its own
handshake messages (no close of a previously registered live connection);
moreover any authenticated `/esp32` connection, registered or evicted, still
replaces the shutters state with its `STATE` payload. -/
theorem register_transfers_ownership (s₁ : SState) (c₁ : ConnId) (i₁ : ConnInfo)
    (n₁ : Nat) (s₂ : SState) (c₂ : ConnId) (i₂ : ConnInfo) (d : ShuttersData)
    (n₂ : Nat)
    (h₁ : s₁.conns.lookup c₁ = some i₁) (h₂ : i₁.path = .esp32)
    (h₃ : i₁.authenticated = false)
    (h₄ : s₂.conns.lookup c₂ = some i₂) (h₅ : i₂.path = .esp32)
    (h₆ : i₂.authenticated = true) :
    step s₁ (.message c₁ (some (.auth ESP32_SECRET))) n₁ =
      ({ s₁ with conns := setAuth s₁.conns c₁, esp32Socket := some c₁ },
       [.send c₁ .authOk, .send c₁ .requestState]) ∧
    (step s₂ (.message c₂ (some (.state d))) n₂).1.shuttersState = ⟨d, some n₂⟩ := by
  constructor
  · simp [step, h₁, h₂, stepESP32, h₃]
  · simp [step, h₄, h₅, stepESP32, h₆]

/-- Claim C1 witness — the amended statement evaluated on concrete states:
an unauthenticated connection 1, and an evicted authenticated connection 2. -/
theorem register_transfers_ownership_witness :
    step c1wA (.message 1 (some (.auth ESP32_SECRET))) 0 =
      ({ c1wA with conns := setAuth c1wA.conns 1, esp32Socket := some 1 },
       [.send 1 .authOk, .send 1 .requestState]) ∧
    (step c1wB (.message 2 (some (.state demoShutters))) 5).1.shuttersState =
      ⟨demoShutters, some 5⟩ :=
  register_transfers_ownership c1wA 1 ⟨.esp32, false, false⟩ 0 c1wB 2
    ⟨.esp32, true, false⟩ demoShutters 5 rfl rfl rfl rfl rfl rfl

/-- Claim C3 counterexample — closing the registered irrigation device (7)
clears its liveness but emits no action at all: zero broadcasts are
delivered, although an app controller (3) is connected, contradicting the
claimed exactly-one broadcast for the irrigation device class. -/
theorem irrigation_close_no_broadcast_cx :
    c3state.esp32IrrigationSocket = some 7 ∧
    c3result.1.esp32IrrigationSocket = none ∧
    c3result.2 = [] := by
  decide

/-- Claim C3 (amended) — when the registered shutters/robot-bridge device
closes, its liveness is cleared, every robot entry is marked disconnected,
and the actions are exactly one broadcast of the updated robots state; when
the registered irrigation device closes, its liveness is cleared but no
broadcast is issued. -/
theorem close_registered_device_effects (s₁ : SState) (c₁ : ConnId)
    (i₁ : ConnInfo) (s₂ : SState) (c₂ : ConnId) (i₂ : ConnInfo) (n₁ n₂ : Nat)
    (h₁ : s₁.conns.lookup c₁ = some i₁) (h₂ : i₁.path = .esp32)
    (h₃ : s₁.esp32Socket = some c₁)
    (h₄ : s₂.conns.lookup c₂ = some i₂) (h₅ : i₂.path = .esp32Irrigation)
    (h₆ : s₂.esp32IrrigationSocket = some c₂) :
    (step s₁ (.close c₁) n₁).1.esp32Socket = none ∧
    (step s₁ (.close c₁) n₁).1.robotsState = disconnectRobots s₁.robotsState ∧
    (step s₁ (.close c₁) n₁).1.robotsState.data.roomba_j7.connected = false ∧
    (step s₁ (.close c₁) n₁).1.robotsState.data.braava_jet.connected = false ∧
    (step s₁ (.close c₁) n₁).2 =
      broadcastToApps (step s₁ (.close c₁) n₁).1
        (.robotStateUpdate (disconnectRobots s₁.robotsState)) ∧
    (step s₂ (.close c₂) n₂).1.esp32IrrigationSocket = none ∧
    (step s₂ (.close c₂) n₂).2 = [] := by
  simp [step, stepClose, h₁, h₂, h₃, h₄, h₅, h₆, disconnectRobots]

/-- Claim C3 witness — the amended statement evaluated on concrete states:
a registered shutters device (1) with an app (3), and a registered
irrigation device (7) with an app (3). -/
theorem close_registered_device_effects_witness :
    (step c3wA (.close 1) 0).1.esp32Socket = none ∧
    (step c3wA (.close 1) 0).1.robotsState = disconnectRobots c3wA.robotsState ∧
    (step c3wA (.close 1) 0).1.robotsState.data.roomba_j7.connected = false ∧
    (step c3wA (.close 1) 0).1.robotsState.data.braava_jet.connected = false ∧
    (step c3wA (.close 1) 0).2 =
      broadcastToApps (step c3wA (.close 1) 0).1
        (.robotStateUpdate (disconnectRobots c3wA.robotsState)) ∧
    (step c3state (.close 7) 0).1.esp32IrrigationSocket = none ∧
    (step c3state (.close 7) 0).2 = [] :=
  close_registered_device_effects c3wA 1 ⟨.esp32, true, false⟩ c3state 7
    ⟨.esp32Irrigation, true, false⟩ 0 0 rfl rfl rfl rfl rfl rfl

/-- Claim C4 counterexample — with a registered shutters device (1), a
registered (authenticated) irrigation device (2) and an app controller (3),
the broadcast triggered by a shutters `STATE` message is delivered to the
irrigation device connection 2 as well as to the controller 3 — a
Device-role connection does receive broadcasts, contradicting the claim. -/
theorem broadcast_reaches_irrigation_device_cx :
    c4state.conns.lookup 2 = some ⟨.esp32Irrigation, true, false⟩ ∧
    c4state.esp32IrrigationSocket = some 2 ∧
    c4result.2 = [.send 2 (.stateUpdate ⟨c4data, some 6⟩),
                  .send 3 (.stateUpdate ⟨c4data, some 6⟩)] := by
  decide

/-- Claim C4 (amended) — a broadcast send of `m` to connection `c` occurs
exactly when `c` is a tracked, still-open connection that is not the
currently registered shutters socket: controllers receive it, the shutters
device never does, but the irrigation device and any other open non-shutters
connection receive it too. -/
theorem broadcast_recipients_iff (s : SState) (m : OutMsg) (c : ConnId) :
    Action.send c m ∈ broadcastToApps s m ↔
      ∃ i : ConnInfo, (c, i) ∈ s.conns ∧ i.closing = false ∧
        s.esp32Socket ≠ some c := by
  unfold broadcastToApps
  constructor
  · intro h
    rcases List.mem_map.mp h with ⟨⟨a, i⟩, hmem, heq⟩
    rcases List.mem_filter.mp hmem with ⟨hin, hp⟩
    simp only [Action.send.injEq] at heq
    rcases heq with ⟨rfl, -⟩
    simp only [Bool.and_eq_true, Bool.not_eq_true'] at hp
    exact ⟨i, hin, hp.1, by simpa using hp.2⟩
  · rintro ⟨i, hin, hcl, hne⟩
    refine List.mem_map.mpr ⟨(c, i), List.mem_filter.mpr ⟨hin, ?_⟩, rfl⟩
    simp [hcl, hne]

/-- Claim C4 witness — the recipient characterization applied at a concrete
broadcast: the app controller 3 of the concrete state receives the message. -/
theorem broadcast_recipients_iff_witness :
    Action.send 3 (OutMsg.stateUpdate ⟨c4data, some 6⟩) ∈
      broadcastToApps c4state (.stateUpdate ⟨c4data, some 6⟩) :=
  (broadcast_recipients_iff c4state (.stateUpdate ⟨c4data, some 6⟩) 3).mpr
    ⟨⟨.app, false, false⟩, by decide, rfl, by decide⟩

/-- Claim C5 — a controller command with a valid token for a class with no
live device: the plain shutters `COMMAND` path emits no outbound message at
all (neither to the controller nor toward any device), while the irrigation
and robot paths send exactly one explicit failure payload back to the
issuing controller; the state is unchanged in all three cases. -/
theorem absent_device_command_responses (s : SState) (c : ConnId) (i : ConnInfo)
    (a p rid cmd : String) (ch v now : Nat)
    (h₁ : s.conns.lookup c = some i) (h₂ : i.path = .app)
    (h₃ : esp32Live s = false) (h₄ : irrigationLive s = false) :
    step s (.message c (some (.command APP_SECRET a ch v))) now = (s, []) ∧
    step s (.message c (some (.irrigationCommand APP_SECRET p))) now =
      (s, [.send c (.irrigationResponse false)]) ∧
    step s (.message c (some (.robotCommand APP_SECRET rid cmd))) now =
      (s, [.send c (.robotResponse false)]) := by
  have e32 : ∀ d, s.esp32Socket = some d → isOpen s d = false := by
    intro d hd; unfold esp32Live at h₃; rw [hd] at h₃; exact h₃
  have irr : ∀ d, s.esp32IrrigationSocket = some d → isOpen s d = false := by
    intro d hd; unfold irrigationLive at h₄; rw [hd] at h₄; exact h₄
  refine ⟨?_, ?_, ?_⟩
  · simp only [step, h₁, h₂, stepApp]
    cases hs : s.esp32Socket with
    | none => simp
    | some d => simp [e32 d hs]
  · simp only [step, h₁, h₂, stepApp]
    cases hs : s.esp32IrrigationSocket with
    | none => simp
    | some d => simp [irr d hs]
  · simp only [step, h₁, h₂, stepApp]
    cases hs : s.esp32Socket with
    | none => simp
    | some d => simp [e32 d hs]

/-- Claim C5 witness — the three command paths evaluated on a concrete state
with one app controller (9) and no device registered. -/
theorem absent_device_command_responses_witness :
    step c5wstate (.message 9 (some (.command APP_SECRET "OPEN" 1 0))) 0 =
      (c5wstate, []) ∧
    step c5wstate (.message 9 (some (.irrigationCommand APP_SECRET "START"))) 0 =
      (c5wstate, [.send 9 (.irrigationResponse false)]) ∧
    step c5wstate (.message 9 (some (.robotCommand APP_SECRET "roomba_j7" "start"))) 0 =
      (c5wstate, [.send 9 (.robotResponse false)]) :=
  absent_device_command_responses c5wstate 9 ⟨.app, false, false⟩
    "OPEN" "START" "roomba_j7" "start" 1 0 0 rfl rfl rfl rfl

/-- Claim C6 — a close event from a connection that is not the registered
device of either class is a pure removal from the tracked set: the
registered sockets, all three state blobs and the log are unchanged and no
action is emitted (compare-and-clear semantics). -/
theorem stale_close_noop (s : SState) (c : ConnId) (i : ConnInfo) (now : Nat)
    (h₁ : s.conns.lookup c = some i)
    (h₂ : s.esp32Socket ≠ some c) (h₃ : s.esp32IrrigationSocket ≠ some c) :
    step s (.close c) now = ({ s with conns := removeConn s.conns c }, []) := by
  cases hp : i.path <;> simp [step, stepClose, h₁, hp, beq_iff_eq, h₂, h₃]

/-- Claim C6 witness — register B (= 5/6 as the registered sockets), then
fire the delayed close of the evicted authenticated connection 2: the
registration and every state blob are untouched. -/
theorem stale_close_noop_witness :
    step c6wstate (.close 2) 0 =
      ({ c6wstate with conns := removeConn c6wstate.conns 2 }, []) :=
  stale_close_noop c6wstate 2 ⟨.esp32, true, false⟩ 0 rfl (by decide) (by decide)

/-- Claim C7 — `POST /api/command`: a wrong token yields 401 with nothing
sent; with a valid token and no live shutters device, 503 with nothing
sent; with a live device and a failing send, 500; otherwise the response is
success with the command echoed and the command is sent to the registered
shutters device. -/
theorem api_command_statuses (s : SState) (token action : String)
    (channel value : Nat) (sendOk : Bool) :
    (token ≠ APP_SECRET →
      apiCommand s token action channel value sendOk = (.unauthorized, []) ∧
      (apiCommand s token action channel value sendOk).1.status = 401) ∧
    (token = APP_SECRET → esp32Live s = false →
      apiCommand s token action channel value sendOk = (.unavailable, []) ∧
      (apiCommand s token action channel value sendOk).1.status = 503) ∧
    (∀ d, token = APP_SECRET → s.esp32Socket = some d → isOpen s d = true →
      sendOk = false →
      apiCommand s token action channel value sendOk = (.sendFailed, []) ∧
      (apiCommand s token action channel value sendOk).1.status = 500) ∧
    (∀ d, token = APP_SECRET → s.esp32Socket = some d → isOpen s d = true →
      sendOk = true →
      apiCommand s token action channel value sendOk =
        (.ok action channel value, [.send d (.command action channel value)])) := by
  refine ⟨?_, ?_, ?_, ?_⟩
  · intro hne
    simp [apiCommand, hne, ApiResp.status]
  · intro heq hlive
    have e32 : ∀ d, s.esp32Socket = some d → isOpen s d = false := by
      intro d hd; unfold esp32Live at hlive; rw [hd] at hlive; exact hlive
    cases hs : s.esp32Socket with
    | none => simp [apiCommand, heq, hs, ApiResp.status]
    | some d => simp [apiCommand, heq, hs, e32 d hs, ApiResp.status]
  · intro d heq hd hopen hsend
    simp [apiCommand, heq, hd, hopen, hsend, ApiResp.status]
  · intro d heq hd hopen hsend
    simp [apiCommand, heq, hd, hopen, hsend]

/-- Claim C7 witness — the four branches evaluated concretely: a wrong
token, a valid token with no device, and a live registered device (1) with
a failing and with a succeeding send. -/
theorem api_command_statuses_witness :
    apiCommand initialState "wrong-token" "OPEN" 1 0 true = (.unauthorized, []) ∧
    apiCommand initialState APP_SECRET "OPEN" 1 0 true = (.unavailable, []) ∧
    apiCommand apiDemo APP_SECRET "OPEN" 1 0 false = (.sendFailed, []) ∧
    apiCommand apiDemo APP_SECRET "OPEN" 1 0 true =
      (.ok "OPEN" 1 0, [.send 1 (.command "OPEN" 1 0)]) :=
  ⟨((api_command_statuses initialState "wrong-token" "OPEN" 1 0 true).1
      (by decide)).1,
   ((api_command_statuses initialState APP_SECRET "OPEN" 1 0 true).2.1
      rfl (by decide)).1,
   ((api_command_statuses apiDemo APP_SECRET "OPEN" 1 0 false).2.2.1 1
      rfl rfl (by decide) rfl).1,
   (api_command_statuses apiDemo APP_SECRET "OPEN" 1 0 true).2.2.2 1
      rfl rfl (by decide) rfl⟩

/-- Claim C9 counterexample — a robot that is connected but has no cached
state yet: `getStatus` returns a record with the connected flag true and
phase "waiting", not the claimed explicit disconnected record with the
connected flag false. -/
theorem connected_without_cache_not_disconnected_cx :
    getStatus c9robots "roomba_j7" = .ok c9record ∧
    c9record.connected = true ∧ ¬c9record.phase = "disconnected" :=
  ⟨rfl, rfl, by decide⟩

/-- Claim C9 (amended) — for every known robot id, `getStatus` is a pure
function of the cached map (no network round-trip): when the robot is not
connected it returns battery 0, phase "disconnected", connected false and an
explicit error; when connected with no cached state it returns battery 0,
phase "waiting" and connected true; otherwise it returns the last pushed
state (battery, phase, cycle, bin, error, position) with connected true. -/
theorem getStatus_cached_record (robots : List (String × Robot)) (rid : String)
    (r : Robot) (h : robots.lookup rid = some r) :
    (r.connected = false →
      getStatus robots rid = .ok ⟨rid, r.name, r.rtype, false, 0, "disconnected",
        none, none, some "Not connected to robot", none⟩) ∧
    (r.connected = true → r.lastState = none →
      getStatus robots rid = .ok ⟨rid, r.name, r.rtype, true, 0, "waiting",
        none, none, none, none⟩) ∧
    (∀ st, r.connected = true → r.lastState = some st →
      getStatus robots rid = .ok ⟨rid, r.name, r.rtype, true, st.batPct.getD 0,
        st.missionPhase.getD "unknown", some (st.missionCycle.getD "none"),
        some (st.binFull.getD false), st.missionError, st.pose⟩) := by
  refine ⟨?_, ?_, ?_⟩
  · intro hc
    cases hls : r.lastState <;> simp [getStatus, h, hc, hls]
  · intro hc hls
    simp [getStatus, h, hc, hls]
  · intro st hc hls
    simp [getStatus, h, hc, hls]

/-- Claim C9 witness — the amended statement evaluated on a concrete map
holding one disconnected robot. -/
theorem getStatus_cached_record_witness :
    getStatus c9wrobots "braava_jet" = .ok ⟨"braava_jet", "Braava Jet", "mop",
      false, 0, "disconnected", none, none, some "Not connected to robot", none⟩ :=
  (getStatus_cached_record c9wrobots "braava_jet"
    ⟨"Braava Jet", "mop", false, none⟩ rfl).1 rfl

end Relay
